import Mathlib

/-!
Shallow embedding of the libadfir-db repository (src/utils.py, src/manager.py)
and verification of its specification claims.

Conventions of the embedding:
* Python `None` / optional values become `Option`.
* Python exceptions become `Except PyErr`.
* SQLAlchemy sessions and engines are identified by allocation ids (`Nat`),
  threaded through an explicit allocation counter, so that "the identical
  instance" / "a new instance" is expressible as id (in)equality.
* The SQLAlchemy `@compiles` extension keeps, per construct class, a registry
  of handlers keyed by dialect name; a bare `@compiles(cls)` registers under
  the key "default".  Compilation looks up the dialect name, falls back to the
  "default" entry, and raises `CompileError` ("construct has no default
  compilation handler") when neither exists.  This dispatcher is modelled by
  `compiles_dispatch`.
* A handler for a DDL construct receives the dialect's DDL compiler.  The DDL
  compiler has no visit handler for SELECT constructs, so `compiler.process`
  applied to a selectable raises `UnsupportedCompilationError`; rendering a
  selectable from DDL requires `compiler.sql_compiler.process`.  These two
  are modelled by `ddl_compiler_process` and `sql_compiler_process`.
-/

namespace ADFIRDb

/-- Python-level failures that the embedded code can raise. -/
inductive PyErr where
  /-- attribute lookup failed (e.g. `None.query`, or `getattr` miss) -/
  | attributeError
  /-- `None` called as a function (`NoneType object is not callable`) -/
  | typeError
  /-- `@compiles` dispatch found no handler and no "default" handler -/
  | compileError
  /-- a compiler was asked to render a construct it has no visit handler for -/
  | unsupportedCompilationError
deriving Repr, DecidableEq

/-- A fragment of the SQL text of a selectable: literal SQL text, or a bound
parameter carrying its key and the literal rendering of its value. -/
inductive SqlFragment where
  | lit (text : String)
  | bindparam (key : String) (value : String)
deriving Repr, DecidableEq

/-- An output column of a selectable.  Source columns carry more attributes
than the three that `create_view` copies. -/
structure SourceColumn where
  name : String
  type : String
  primary_key : Bool
  nullable : Bool
  index : Bool
deriving Repr, DecidableEq

/-- A selectable (`FromClause`): its output columns `c` and the fragments of
its SQL text. -/
structure Selectable where
  c : List SourceColumn
  fragments : List SqlFragment
deriving Repr, DecidableEq

/-- `compiler.sql_compiler.process(selectable, literal_binds=...)`: renders the
selectable's SQL text; with `literal_binds` every bound parameter is rendered
as its literal value, otherwise as a `:key` placeholder. -/
def sql_compiler_process (selectable : Selectable) (literal_binds : Bool) : String :=
  String.join (selectable.fragments.map fun f =>
    match f with
    | SqlFragment.lit text => text
    | SqlFragment.bindparam key value =>
        if literal_binds then value else ":" ++ key)

/-- `compiler.process(selectable, literal_binds=...)` where `compiler` is the
dialect's DDL compiler: the DDL compiler has no visit handler for a selectable
(no `visit_select`), so the dispatch raises `UnsupportedCompilationError`. -/
def ddl_compiler_process (selectable : Selectable) (literal_binds : Bool) :
    Except PyErr String :=
  Except.error PyErr.unsupportedCompilationError

/-- The `@compiles` dispatcher (`sqlalchemy.ext.compiler._dispatcher`): look up
the dialect name in the registered specs, fall back to the "default" entry,
else raise `CompileError`. -/
def compiles_dispatch {α : Type} (specs : List (String × α)) (dialect : String) :
    Except PyErr α :=
  match specs.lookup dialect with
  | some fn => Except.ok fn
  | none =>
    match specs.lookup "default" with
    | some fn => Except.ok fn
    | none => Except.error PyErr.compileError

/-- `@compiles(TimestampDefaultExpression, dialect)` registrations from
src/utils.py: one handler per dialect, each returning a constant string.
No bare `@compiles` registration exists, so there is no "default" entry. -/
def timestamp_expression_specs : List (String × String) :=
  [("mssql", "GETUTCDATE()"),
   ("mysql", "UTC_TIMESTAMP()"),
   ("oracle", "SYS_EXTRACT_UTC(SYSTIMESTAMP)"),
   ("postgresql", "(NOW() AT TIME ZONE \x27UTC\x27)"),
   ("sqlite", "CURRENT_TIMESTAMP")]

/-- Compiling a `TimestampDefaultExpression` node under a dialect. -/
def compile_timestamp_default_expression (dialect : String) : Except PyErr String :=
  compiles_dispatch timestamp_expression_specs dialect

/-- The view DDL constructs of src/utils.py (`CreateViewExpression`,
`CreateMaterializedViewExpression`, `DropViewExpression`,
`DropMaterializedViewExpression`), each carrying its constructor
arguments. -/
inductive DDLElem where
  | CreateViewExpression (name : String) (selectable : Selectable)
  | CreateMaterializedViewExpression (name : String) (selectable : Selectable)
  | DropViewExpression (name : String)
  | DropMaterializedViewExpression (name : String)
deriving Repr, DecidableEq

/-- `generate_view_create_expression` (bare `@compiles(CreateViewExpression)`):
renders the selectable via `compiler.sql_compiler.process(..., literal_binds=True)`. -/
def generate_view_create_expression (name : String) (selectable : Selectable) :
    Except PyErr String :=
  Except.ok ("CREATE OR REPLACE VIEW " ++ name ++ " AS " ++
    sql_compiler_process selectable true)

/-- `generate_mview_create_expression` (bare
`@compiles(CreateMaterializedViewExpression)`): renders the selectable via
`compiler.process(..., literal_binds=True)` — the DDL compiler itself. -/
def generate_mview_create_expression (name : String) (selectable : Selectable) :
    Except PyErr String :=
  (ddl_compiler_process selectable true).map
    (fun q => "CREATE OR REPLACE VIEW " ++ name ++ " AS " ++ q)

/-- `generate_mview_create_expression` registered for the postgresql dialect:
also renders the selectable via `compiler.process(..., literal_binds=True)`. -/
def generate_mview_create_expression_postgresql (name : String)
    (selectable : Selectable) : Except PyErr String :=
  (ddl_compiler_process selectable true).map
    (fun q => "CREATE OR REPLACE MATERIALIZED VIEW " ++ name ++ " AS " ++ q)

/-- `generate_view_drop_expression` (bare `@compiles(DropViewExpression)`). -/
def generate_view_drop_expression (name : String) : Except PyErr String :=
  Except.ok ("DROP VIEW IF EXISTS " ++ name)

/-- `generate_mview_drop_expression` (bare
`@compiles(DropMaterializedViewExpression)`). -/
def generate_mview_drop_expression (name : String) : Except PyErr String :=
  Except.ok ("DROP VIEW IF EXISTS " ++ name)

/-- `generate_mview_drop_expression` registered for the postgresql dialect. -/
def generate_mview_drop_expression_postgresql (name : String) : Except PyErr String :=
  Except.ok ("DROP MATERIALIZED VIEW IF EXISTS " ++ name)

/-- The `@compiles` registry of each DDL construct, keyed by dialect name
("default" for a bare registration), exactly as registered in src/utils.py. -/
def ddl_specs : DDLElem → List (String × Except PyErr String)
  | DDLElem.CreateViewExpression name selectable =>
      [("default", generate_view_create_expression name selectable)]
  | DDLElem.CreateMaterializedViewExpression name selectable =>
      [("default", generate_mview_create_expression name selectable),
       ("postgresql", generate_mview_create_expression_postgresql name selectable)]
  | DDLElem.DropViewExpression name =>
      [("default", generate_view_drop_expression name)]
  | DDLElem.DropMaterializedViewExpression name =>
      [("default", generate_mview_drop_expression name),
       ("postgresql", generate_mview_drop_expression_postgresql name)]

/-- Compiling a view DDL construct under a dialect: dispatch to the registered
handler, then run it. -/
def compile_ddl (element : DDLElem) (dialect : String) : Except PyErr String :=
  match compiles_dispatch (ddl_specs element) dialect with
  | Except.ok handler => handler
  | Except.error e => Except.error e

/-- A column of the table object built by `create_view`: only name, type and
primary-key flag are copied from the source column. -/
structure ViewColumn where
  name : String
  type : String
  primary_key : Bool
deriving Repr, DecidableEq

/-- The table object returned by `create_view` (bound to a fresh temporary
`MetaData`, never to the supplied one). -/
structure ViewTable where
  name : String
  columns : List ViewColumn
deriving Repr, DecidableEq

/-- Schema lifecycle events that `create_view` listens on. -/
inductive DDLEventKind where
  | after_create
  | before_drop
deriving Repr, DecidableEq

/-- A `MetaData` container: names of tables registered on it for physical
creation, and the DDL listeners attached to its lifecycle events. -/
structure MetaDataV where
  tables : List String
  listeners : List (DDLEventKind × DDLElem)
deriving Repr, DecidableEq

/-- `create_view(name, selectable, metadata, materialized)` from src/utils.py:
builds a table object on a fresh temporary metadata whose columns copy the
name, type and primary-key flag of each output column of `selectable`, and
registers an after-create and a before-drop DDL listener on the supplied
metadata (materialized variants when `materialized` is set).  The supplied
metadata's physically-created tables are untouched. -/
def create_view (name : String) (selectable : Selectable) (metadata : MetaDataV)
    (materialized : Bool) : ViewTable × MetaDataV :=
  let tbl : ViewTable :=
    { name := name,
      columns := selectable.c.map fun column =>
        { name := column.name, type := column.type,
          primary_key := column.primary_key } }
  let metadata :=
    { metadata with listeners := metadata.listeners ++
        [(DDLEventKind.after_create,
          if materialized then DDLElem.CreateMaterializedViewExpression name selectable
          else DDLElem.CreateViewExpression name selectable),
         (DDLEventKind.before_drop,
          if materialized then DDLElem.DropMaterializedViewExpression name
          else DDLElem.DropViewExpression name)] }
  (tbl, metadata)

/-- Rendering of a fragment with parameters inlined as literal values. -/
def inline_literal : SqlFragment → String
  | SqlFragment.lit text => text
  | SqlFragment.bindparam _ value => value

/-- A SQLAlchemy engine: its allocation id and the connection string it was
created from. -/
structure Engine where
  eid : Nat
  conn : String
deriving Repr, DecidableEq

/-- A session factory: `sessionmaker(bind=engine)` produces an independent
session per call; `scoped_session(sessionmaker(bind=engine))` keeps a
thread-local registry and hands back the current context's session (one
execution context is modelled, so the registry is a single optional id). -/
inductive SessionFactory where
  | sessionmaker (bind : Nat)
  | scoped_session (bind : Nat) (registry : Option Nat)
deriving Repr, DecidableEq

/-- Calling a session factory with the next allocation id `ctr`: returns the
obtained session id, the factory's updated state, and the new counter. -/
def call_factory : SessionFactory → Nat → Nat × SessionFactory × Nat
  | SessionFactory.sessionmaker bind, ctr =>
      (ctr, SessionFactory.sessionmaker bind, ctr + 1)
  | SessionFactory.scoped_session bind (some s), ctr =>
      (s, SessionFactory.scoped_session bind (some s), ctr)
  | SessionFactory.scoped_session bind none, ctr =>
      (ctr, SessionFactory.scoped_session bind (some ctr), ctr + 1)

/-- `scoped_session.remove()`: tear down the current context's session.  (The
`sessionmaker` arm is unreachable: `close_session` only calls `remove` in
scoped mode, where the factory is a `scoped_session`.) -/
def factory_remove : SessionFactory → SessionFactory
  | SessionFactory.sessionmaker bind => SessionFactory.sessionmaker bind
  | SessionFactory.scoped_session bind _ => SessionFactory.scoped_session bind none

/-- A Python value that `create_session` can return: `None`, a session, or the
session factory itself (scoped mode returns the raw `session_factory` field). -/
inductive PyValue where
  | none
  | session (s : Nat)
  | factory (f : SessionFactory)
deriving Repr, DecidableEq

/-- The `DBManager` state (src/manager.py): the properties behind the ad-hoc
getters/setters, as set by `__init__`. -/
structure DBManager where
  conn_string : Option String
  metadata : Option MetaDataV
  session_factory : Option SessionFactory
  session : Option Nat
  scoped_sessions : Bool
  engine : Option Engine
deriving Repr, DecidableEq

/-- `DBManager.create_engine(conn_string, persist)`: an explicit connection
string is stored first; if a connection string is then available a new engine
is created from it (and stored when `persist`), else the method returns
`None` without error. -/
def DBManager.create_engine (m : DBManager) (ctr : Nat)
    (conn_string : Option String) (persist : Bool) :
    Option Engine × DBManager × Nat :=
  let m :=
    match conn_string with
    | some c => { m with conn_string := some c }
    | none => m
  match m.conn_string with
  | some cs =>
      let engine : Engine := { eid := ctr, conn := cs }
      let m := if persist then { m with engine := some engine } else m
      (some engine, m, ctr + 1)
  | none => (none, m, ctr)

/-- `DBManager.create_session(persist)`: in scoped mode, return the raw
`session_factory` field (even when it is unset).  In plain mode with
`persist`, return the stored session, creating and storing one first if none
exists; without `persist`, call the factory for a fresh, unstored session.
Calling an unset factory raises `TypeError` (`NoneType` is not callable). -/
def DBManager.create_session (m : DBManager) (ctr : Nat) (persist : Bool) :
    Except PyErr (PyValue × DBManager × Nat) :=
  if m.scoped_sessions then
    Except.ok
      (match m.session_factory with
       | some f => PyValue.factory f
       | none => PyValue.none, m, ctr)
  else if persist then
    match m.session with
    | some s => Except.ok (PyValue.session s, m, ctr)
    | none =>
      match m.session_factory with
      | none => Except.error PyErr.typeError
      | some f =>
          let r := call_factory f ctr
          Except.ok (PyValue.session r.1,
            { m with session := some r.1, session_factory := some r.2.1 }, r.2.2)
  else
    match m.session_factory with
    | none => Except.error PyErr.typeError
    | some f =>
        let r := call_factory f ctr
        Except.ok (PyValue.session r.1,
          { m with session_factory := some r.2.1 }, r.2.2)

/-- `DBManager.close_session(session)`: close an explicit session if given
(no manager-state change); else in scoped mode with a factory, tear down the
current context via `remove()`; else close and clear the stored session. -/
def DBManager.close_session (m : DBManager) (session : Option Nat) : DBManager :=
  match session with
  | some _ => m
  | none =>
    if m.scoped_sessions && m.session_factory.isSome then
      { m with session_factory := m.session_factory.map factory_remove }
    else
      match m.session with
      | some _ => { m with session := none }
      | none => m

/-- `DBManager.bootstrap(engine)`: store an explicit engine if given; when an
engine and metadata are both present, `metadata.create_all(engine)` emits the
schema's DDL — an external effect with no manager-state change. -/
def DBManager.bootstrap (m : DBManager) (engine : Option Engine) : DBManager :=
  match engine with
  | some e => { m with engine := some e }
  | none => m

/-- `DBManager.initialize(conn_string, metadata, bootstrap, scoped,
create_session)`: capture the connection string and metadata, create (and
persist) an engine, and when an engine is available optionally bootstrap,
(re)build the session factory — scoped whenever `scoped` is passed or the
manager is already in scoped mode — and optionally eagerly create a persisted
session, but only in plain mode. -/
def DBManager.initialize (m : DBManager) (ctr : Nat) (conn_string : Option String)
    (metadata : Option MetaDataV) (bootstrap : Bool) (scoped' : Bool)
    (create_session : Bool) : DBManager × Nat :=
  let m :=
    match conn_string with
    | some c => { m with conn_string := some c }
    | none => m
  let r := m.create_engine ctr none true
  let m := r.2.1
  let ctr := r.2.2
  let m :=
    match metadata with
    | some md => { m with metadata := some md }
    | none => m
  match m.engine with
  | none => (m, ctr)
  | some e =>
    let m := if bootstrap then m.bootstrap none else m
    let m :=
      if scoped' || m.scoped_sessions then
        { m with
            session_factory := some (SessionFactory.scoped_session e.eid none),
            scoped_sessions := true }
      else
        { m with
            session_factory := some (SessionFactory.sessionmaker e.eid),
            scoped_sessions := false }
    if create_session && !m.scoped_sessions then
      match m.create_session ctr true with
      | Except.ok (_, m, ctr) => (m, ctr)
      | Except.error _ => (m, ctr)
    else (m, ctr)

/-- A mapped model class: the names of its declared attributes. -/
structure Model where
  attrs : List String
deriving Repr, DecidableEq

/-- A query object: the session it was opened on, the queried model, and the
equality filters applied so far, in application order. -/
structure QueryV where
  session : Nat
  model : Model
  filters : List (String × Nat)
deriving Repr, DecidableEq

/-- `getattr(model, name)`: succeeds exactly when `name` is a declared
attribute of the model, else raises `AttributeError`. -/
def getattr (model : Model) (name : String) : Except PyErr String :=
  if model.attrs.contains name then Except.ok name
  else Except.error PyErr.attributeError

/-- One iteration of the filter loop of `DBManager.query`:
`query = query.filter(getattr(model, arg) == kwargs[arg])`. -/
def apply_filter (model : Model) (q : QueryV) (kv : String × Nat) :
    Except PyErr QueryV :=
  match getattr model kv.fst with
  | Except.ok _ => Except.ok { q with filters := q.filters ++ [kv] }
  | Except.error e => Except.error e

/-- `DBManager.query(model, **kwargs)`: `self.session.query(model)` — an
`AttributeError` when `self.session` is unset — then one equality filter per
keyword argument, errors propagating. -/
def DBManager.query (m : DBManager) (model : Model)
    (kwargs : List (String × Nat)) : Except PyErr QueryV :=
  match m.session with
  | none => Except.error PyErr.attributeError
  | some s =>
      kwargs.foldlM (apply_filter model)
        { session := s, model := model, filters := [] }

/-- Observable actions performed on a session by the transaction wrappers. -/
inductive Effect where
  | add (session : Nat) (record : Nat)
  | delete (session : Nat) (record : Nat)
  | commit (session : Nat)
  | rollback (session : Nat)
deriving Repr, DecidableEq

/-- `DBManager.commit(session)`: resolve the explicit session, falling back to
the stored one; `None.commit()` is an `AttributeError`. -/
def DBManager.commit (m : DBManager) (session : Option Nat) :
    Except PyErr (List Effect × DBManager) :=
  let session :=
    match session with
    | none => m.session
    | some s => some s
  match session with
  | none => Except.error PyErr.attributeError
  | some s => Except.ok ([Effect.commit s], m)

/-- `DBManager.rollback(session)`: like `commit`, for rollback. -/
def DBManager.rollback (m : DBManager) (session : Option Nat) :
    Except PyErr (List Effect × DBManager) :=
  let session :=
    match session with
    | none => m.session
    | some s => some s
  match session with
  | none => Except.error PyErr.attributeError
  | some s => Except.ok ([Effect.rollback s], m)

/-- `DBManager.add(record, session, commit)`: resolve the session as above,
stage the add, then commit that session if requested. -/
def DBManager.add (m : DBManager) (record : Nat) (session : Option Nat)
    (commit : Bool) : Except PyErr (List Effect × DBManager) :=
  let session :=
    match session with
    | none => m.session
    | some s => some s
  match session with
  | none => Except.error PyErr.attributeError
  | some s =>
    if commit then
      match m.commit (some s) with
      | Except.ok (effects, m') => Except.ok (Effect.add s record :: effects, m')
      | Except.error e => Except.error e
    else Except.ok ([Effect.add s record], m)

/-- `DBManager.delete(record, session, commit)`: resolve the session as above,
stage the delete, then commit that session if requested. -/
def DBManager.delete (m : DBManager) (record : Nat) (session : Option Nat)
    (commit : Bool) : Except PyErr (List Effect × DBManager) :=
  let session :=
    match session with
    | none => m.session
    | some s => some s
  match session with
  | none => Except.error PyErr.attributeError
  | some s =>
    if commit then
      match m.commit (some s) with
      | Except.ok (effects, m') => Except.ok (Effect.delete s record :: effects, m')
      | Except.error e => Except.error e
    else Except.ok ([Effect.delete s record], m)

/-- A manager as built by `DBManager(scoped=True)`: scoped mode requested at
construction, `initialize` never run, so no factory, session or engine. -/
def uninitializedScopedManager : DBManager :=
  { conn_string := none, metadata := none, session_factory := none,
    session := none, scoped_sessions := true, engine := none }

/-- A manager as built by `DBManager()`: plain mode, `initialize` never run. -/
def uninitializedPlainManager : DBManager :=
  { conn_string := none, metadata := none, session_factory := none,
    session := none, scoped_sessions := false, engine := none }

/-- A manager in plain mode holding a persisted session with id 7, as after
initialize(create_session=True). -/
def mgrWithSession : DBManager :=
  { conn_string := some "sqlite://", metadata := none,
    session_factory := some (SessionFactory.sessionmaker 0),
    session := some 7, scoped_sessions := false,
    engine := some { eid := 0, conn := "sqlite://" } }

/-- A concrete selectable: one output column and a parameterised WHERE
clause. -/
def sampleSelectable : Selectable :=
  { c := [{ name := "id", type := "INTEGER", primary_key := true,
            nullable := false, index := false }],
    fragments := [SqlFragment.lit "SELECT t.id FROM t WHERE t.id = ",
                  SqlFragment.bindparam "id_1" "1"] }

/-- A concrete metadata container. -/
def sampleMetadata : MetaDataV :=
  { tables := ["fileledger"], listeners := [] }

/-- A model with two declared attributes. -/
def queryModelW : Model :=
  { attrs := ["file_name", "file_size"] }

/-! ### Helper lemmas -/

theorem except_ok_bind {ε α β : Type} (a : α) (f : α → Except ε β) :
    (Except.ok a : Except ε α) >>= f = f a := rfl

theorem except_error_bind {ε α β : Type} (e : ε) (f : α → Except ε β) :
    (Except.error e : Except ε α) >>= f = Except.error e := rfl

/-- Compiling a plain create-view construct hits the bare registration under
every dialect. -/
theorem compile_ddl_create_view (name : String) (selectable : Selectable)
    (dialect : String) :
    compile_ddl (DDLElem.CreateViewExpression name selectable) dialect
      = Except.ok ("CREATE OR REPLACE VIEW " ++ name ++ " AS " ++
          sql_compiler_process selectable true) := by
  by_cases h : dialect = "default"
  · subst h; rfl
  · have hb : (dialect == "default") = false := by
      simpa using h
    simp [compile_ddl, compiles_dispatch, ddl_specs, List.lookup_cons, hb,
      generate_view_create_expression]

/-- Compiling a materialized create-view construct fails under every dialect:
both registered handlers hand the selectable to the DDL compiler itself. -/
theorem compile_ddl_create_mview (name : String) (selectable : Selectable)
    (dialect : String) :
    compile_ddl (DDLElem.CreateMaterializedViewExpression name selectable) dialect
      = Except.error PyErr.unsupportedCompilationError := by
  by_cases h1 : dialect = "default"
  · subst h1; rfl
  · by_cases h2 : dialect = "postgresql"
    · subst h2; rfl
    · have hb1 : (dialect == "default") = false := by simpa using h1
      have hb2 : (dialect == "postgresql") = false := by simpa using h2
      simp [compile_ddl, compiles_dispatch, ddl_specs, List.lookup_cons, hb1, hb2,
        generate_mview_create_expression, ddl_compiler_process, Except.map]

/-- Compiling a plain drop-view construct under any dialect. -/
theorem compile_ddl_drop_view (name : String) (dialect : String) :
    compile_ddl (DDLElem.DropViewExpression name) dialect
      = Except.ok ("DROP VIEW IF EXISTS " ++ name) := by
  by_cases h : dialect = "default"
  · subst h; rfl
  · have hb : (dialect == "default") = false := by simpa using h
    simp [compile_ddl, compiles_dispatch, ddl_specs, List.lookup_cons, hb,
      generate_view_drop_expression]

/-- Compiling a materialized drop-view construct under any dialect. -/
theorem compile_ddl_drop_mview (name : String) (dialect : String) :
    compile_ddl (DDLElem.DropMaterializedViewExpression name) dialect
      = Except.ok ((if dialect = "postgresql"
          then "DROP MATERIALIZED VIEW IF EXISTS "
          else "DROP VIEW IF EXISTS ") ++ name) := by
  by_cases h2 : dialect = "postgresql"
  · subst h2; rfl
  · by_cases h1 : dialect = "default"
    · subst h1; rfl
    · have hb1 : (dialect == "default") = false := by simpa using h1
      have hb2 : (dialect == "postgresql") = false := by simpa using h2
      simp [compile_ddl, compiles_dispatch, ddl_specs, List.lookup_cons, hb1, hb2,
        generate_mview_drop_expression, h2]

/-! ### Claims -/

/-- Claim C1, counterexample: the abstract current-UTC-timestamp expression
has no handler registered under the "default" key, so compiling it under the
default/generic dialect raises a CompileError instead of rendering
CURRENT_TIMESTAMP as the claim states. -/
theorem claim_C1_counterexample :
    compile_timestamp_default_expression "default" = Except.error PyErr.compileError ∧
    ¬ compile_timestamp_default_expression "default" = Except.ok "CURRENT_TIMESTAMP" := by
  refine ⟨rfl, fun h => ?_⟩
  rw [show compile_timestamp_default_expression "default"
        = Except.error PyErr.compileError from rfl] at h
  exact Except.noConfusion h

/-- Claim C1 (amended): the current-UTC-timestamp expression renders
GETUTCDATE() under mssql, UTC_TIMESTAMP() under mysql,
SYS_EXTRACT_UTC(SYSTIMESTAMP) under oracle, (NOW() AT TIME ZONE 'UTC') under
postgresql, and CURRENT_TIMESTAMP under sqlite; under any dialect with no
registered rule — the default/generic dialect included — compilation raises a
CompileError (no default compilation handler) rather than rendering
CURRENT_TIMESTAMP. -/
theorem claim_C1_amended :
    compile_timestamp_default_expression "mssql" = Except.ok "GETUTCDATE()" ∧
    compile_timestamp_default_expression "mysql" = Except.ok "UTC_TIMESTAMP()" ∧
    compile_timestamp_default_expression "oracle"
      = Except.ok "SYS_EXTRACT_UTC(SYSTIMESTAMP)" ∧
    compile_timestamp_default_expression "postgresql"
      = Except.ok "(NOW() AT TIME ZONE \x27UTC\x27)" ∧
    compile_timestamp_default_expression "sqlite" = Except.ok "CURRENT_TIMESTAMP" ∧
    ∀ dialect : String,
      dialect ∉ ["mssql", "mysql", "oracle", "postgresql", "sqlite"] →
      compile_timestamp_default_expression dialect = Except.error PyErr.compileError := by
  refine ⟨rfl, rfl, rfl, rfl, rfl, fun dialect h => ?_⟩
  simp only [List.mem_cons, List.not_mem_nil, or_false, not_or] at h
  obtain ⟨h1, h2, h3, h4, h5⟩ := h
  have b1 : (dialect == "mssql") = false := by simpa using h1
  have b2 : (dialect == "mysql") = false := by simpa using h2
  have b3 : (dialect == "oracle") = false := by simpa using h3
  have b4 : (dialect == "postgresql") = false := by simpa using h4
  have b5 : (dialect == "sqlite") = false := by simpa using h5
  simp [compile_timestamp_default_expression, compiles_dispatch,
    timestamp_expression_specs, List.lookup_cons, b1, b2, b3, b4, b5]

/-- Witness for claim C1: the generic "default" dialect has no registered rule
and compilation raises a CompileError there. -/
theorem claim_C1_witness :
    compile_timestamp_default_expression "default" = Except.error PyErr.compileError :=
  claim_C1_amended.2.2.2.2.2 "default" (by decide)

/-- Claim C2, code evaluation: on a scoped-mode manager that was never
initialized (no session factory), create_session returns None — the unset
factory field — without raising, for either persist value, contradicting both
the claim and the method's own docstring (which promises an AttributeError);
only the plain-mode paths fail, and with a TypeError (calling None). -/
theorem claim_C2_code_eval :
    uninitializedScopedManager.create_session 0 true
      = Except.ok (PyValue.none, uninitializedScopedManager, 0) ∧
    uninitializedScopedManager.create_session 0 false
      = Except.ok (PyValue.none, uninitializedScopedManager, 0) ∧
    uninitializedPlainManager.create_session 0 true = Except.error PyErr.typeError ∧
    uninitializedPlainManager.create_session 0 false = Except.error PyErr.typeError :=
  ⟨rfl, rfl, rfl, rfl⟩

/-- Claim C3, code evaluation: compiling the materialized create DDL raises
UnsupportedCompilationError under postgresql and under every other dialect —
both generate_mview_create_expression handlers pass the selectable to
compiler.process, and the DDL compiler cannot render a SELECT (the plain-view
handler correctly uses compiler.sql_compiler.process).  The drop side behaves
as the claim states. -/
theorem claim_C3_code_eval :
    compile_ddl (DDLElem.CreateMaterializedViewExpression "v1" sampleSelectable)
        "postgresql" = Except.error PyErr.unsupportedCompilationError ∧
    compile_ddl (DDLElem.CreateMaterializedViewExpression "v1" sampleSelectable)
        "sqlite" = Except.error PyErr.unsupportedCompilationError ∧
    compile_ddl (DDLElem.DropMaterializedViewExpression "v1") "postgresql"
      = Except.ok "DROP MATERIALIZED VIEW IF EXISTS v1" ∧
    compile_ddl (DDLElem.DropMaterializedViewExpression "v1") "sqlite"
      = Except.ok "DROP VIEW IF EXISTS v1" :=
  ⟨rfl, rfl, rfl, rfl⟩

/-- Claim C8: create_view returns a table with exactly one column per output
column of the selectable, copying name, type and primary-key flag; it leaves
the supplied metadata's physically-created tables untouched; it registers an
after-create and a before-drop listener; every successfully emitted create
statement renders the source query with all parameters inlined as literal
values (the literal_binds rendering, in which each bound parameter appears as
its value, never as a placeholder); for a plain view the create statement is
always emitted; and the before-drop listener emits the corresponding drop
statement. -/
theorem claim_C8 (name : String) (selectable : Selectable) (metadata : MetaDataV)
    (materialized : Bool) :
    (create_view name selectable metadata materialized).1.name = name ∧
    (create_view name selectable metadata materialized).1.columns
      = selectable.c.map (fun column =>
          { name := column.name, type := column.type,
            primary_key := column.primary_key }) ∧
    (create_view name selectable metadata materialized).2.tables = metadata.tables ∧
    (create_view name selectable metadata materialized).2.listeners
      = metadata.listeners ++
        [(DDLEventKind.after_create,
          if materialized then DDLElem.CreateMaterializedViewExpression name selectable
          else DDLElem.CreateViewExpression name selectable),
         (DDLEventKind.before_drop,
          if materialized then DDLElem.DropMaterializedViewExpression name
          else DDLElem.DropViewExpression name)] ∧
    (∀ dialect statement,
       compile_ddl
           (if materialized then DDLElem.CreateMaterializedViewExpression name selectable
            else DDLElem.CreateViewExpression name selectable) dialect
         = Except.ok statement →
       statement = "CREATE OR REPLACE VIEW " ++ name ++ " AS "
           ++ sql_compiler_process selectable true) ∧
    sql_compiler_process selectable true
      = String.join (selectable.fragments.map inline_literal) ∧
    (materialized = false →
       ∀ dialect, compile_ddl (DDLElem.CreateViewExpression name selectable) dialect
         = Except.ok ("CREATE OR REPLACE VIEW " ++ name ++ " AS "
             ++ sql_compiler_process selectable true)) ∧
    (∀ dialect,
       compile_ddl
           (if materialized then DDLElem.DropMaterializedViewExpression name
            else DDLElem.DropViewExpression name) dialect
         = Except.ok ((if materialized = true ∧ dialect = "postgresql"
             then "DROP MATERIALIZED VIEW IF EXISTS "
             else "DROP VIEW IF EXISTS ") ++ name)) := by
  refine ⟨rfl, rfl, rfl, rfl, ?_, ?_, ?_, ?_⟩
  · intro dialect statement hok
    cases materialized
    · rw [if_neg (by simp)] at hok
      rw [compile_ddl_create_view name selectable dialect] at hok
      exact ((Except.ok.injEq _ _).mp hok).symm
    · rw [if_pos (by simp)] at hok
      rw [compile_ddl_create_mview name selectable dialect] at hok
      exact Except.noConfusion hok
  · simp only [sql_compiler_process]
    congr 1
  · intro _ dialect
    exact compile_ddl_create_view name selectable dialect
  · intro dialect
    cases materialized
    · rw [if_neg (by simp), compile_ddl_drop_view name dialect,
        if_neg (by simp)]
    · rw [if_pos (by simp), compile_ddl_drop_mview name dialect]
      by_cases h : dialect = "postgresql"
      · rw [if_pos h, if_pos ⟨rfl, h⟩]
      · rw [if_neg h, if_neg (by simp [h])]

/-- Witness for claim C8: the plain after-create hook of a concrete
create_view call emits the CREATE statement with the bound parameter rendered
as its literal value. -/
theorem claim_C8_witness :
    compile_ddl (DDLElem.CreateViewExpression "v1" sampleSelectable) "sqlite"
      = Except.ok ("CREATE OR REPLACE VIEW " ++ "v1" ++ " AS "
          ++ sql_compiler_process sampleSelectable true) :=
  (claim_C8 "v1" sampleSelectable sampleMetadata false).2.2.2.2.2.2.1 rfl "sqlite"

/-- Folding the filter loop over keys that all resolve extends the filter list
in order. -/
theorem foldlM_apply_filter_ok (model : Model) :
    ∀ (kwargs : List (String × Nat)) (q : QueryV),
      (∀ kv ∈ kwargs, model.attrs.contains kv.1 = true) →
      kwargs.foldlM (apply_filter model) q
        = Except.ok { q with filters := q.filters ++ kwargs } := by
  intro kwargs
  induction kwargs with
  | nil =>
      intro q _
      show Except.ok q = _
      rw [List.append_nil]
  | cons kv rest ih =>
      intro q h
      have h1 : model.attrs.contains kv.1 = true := h kv (List.mem_cons_self kv rest)
      have hmem : kv.1 ∈ model.attrs := by simpa using h1
      have hstep : apply_filter model q kv
          = Except.ok { q with filters := q.filters ++ [kv] } := by
        simp [apply_filter, getattr, hmem]
      rw [List.foldlM_cons, hstep, except_ok_bind,
        ih _ (fun kv' hm => h kv' (List.mem_cons_of_mem kv hm))]
      simp

/-- Folding the filter loop over a key list containing an unresolvable key
propagates the AttributeError. -/
theorem foldlM_apply_filter_error (model : Model) :
    ∀ (kwargs : List (String × Nat)) (q : QueryV),
      (∃ kv ∈ kwargs, ¬ model.attrs.contains kv.1 = true) →
      kwargs.foldlM (apply_filter model) q = Except.error PyErr.attributeError := by
  intro kwargs
  induction kwargs with
  | nil =>
      intro q h
      obtain ⟨kv, hm, _⟩ := h
      exact absurd hm (List.not_mem_nil kv)
  | cons kv rest ih =>
      intro q h
      by_cases h1 : model.attrs.contains kv.1 = true
      · have hmem : kv.1 ∈ model.attrs := by simpa using h1
        have hstep : apply_filter model q kv
            = Except.ok { q with filters := q.filters ++ [kv] } := by
          simp [apply_filter, getattr, hmem]
        rw [List.foldlM_cons, hstep, except_ok_bind]
        obtain ⟨kv', hm, hbad⟩ := h
        rcases List.mem_cons.mp hm with he | hr
        · subst he; exact absurd h1 hbad
        · exact ih _ ⟨kv', hr, hbad⟩
      · have hmem : ¬ kv.1 ∈ model.attrs := by simpa using h1
        have hstep : apply_filter model q kv
            = Except.error PyErr.attributeError := by
          simp [apply_filter, getattr, hmem]
        rw [List.foldlM_cons, hstep, except_error_bind]

/-- Claim C4: with a session present, a query whose filters contain a key
that is not a declared attribute of the model fails with an AttributeError
(propagated, not swallowed into an empty result), while a query all of whose
keys are declared attributes returns a query over the model with one equality
filter per key/value pair. -/
theorem claim_C4 (m : DBManager) (s : Nat) (model : Model)
    (kwargs : List (String × Nat)) (hs : m.session = some s) :
    ((∃ kv ∈ kwargs, ¬ model.attrs.contains kv.1 = true) →
       m.query model kwargs = Except.error PyErr.attributeError) ∧
    ((∀ kv ∈ kwargs, model.attrs.contains kv.1 = true) →
       m.query model kwargs
         = Except.ok { session := s, model := model, filters := kwargs }) := by
  constructor
  · intro h
    rw [DBManager.query, hs]
    exact foldlM_apply_filter_error model kwargs _ h
  · intro h
    have h2 := foldlM_apply_filter_ok model kwargs
      { session := s, model := model, filters := [] } h
    rw [DBManager.query, hs]
    simpa using h2

/-- Witness for claim C4: a concrete query with a bogus filter key on a
manager with a live session fails with an AttributeError. -/
theorem claim_C4_witness :
    mgrWithSession.query queryModelW [("bogus", 1)]
      = Except.error PyErr.attributeError :=
  (claim_C4 mgrWithSession 7 queryModelW [("bogus", 1)] rfl).1
    ⟨("bogus", 1), by decide, by decide⟩

/-- Closed form of create_engine with an explicit connection string. -/
theorem create_engine_spec_some (m : DBManager) (ctr : Nat) (c : String)
    (persist : Bool) :
    m.create_engine ctr (some c) persist
      = (some { eid := ctr, conn := c },
         { m with conn_string := some c,
                  engine := if persist then some { eid := ctr, conn := c }
                            else m.engine },
         ctr + 1) := by
  obtain ⟨cs0, md0, sf0, ss0, sc0, en0⟩ := m
  cases persist <;> rfl

/-- Closed form of create_engine falling back to the stored connection
string. -/
theorem create_engine_spec_stored (m : DBManager) (ctr : Nat) (cs : String)
    (persist : Bool) (hm : m.conn_string = some cs) :
    m.create_engine ctr none persist
      = (some { eid := ctr, conn := cs },
         { m with engine := if persist then some { eid := ctr, conn := cs }
                            else m.engine },
         ctr + 1) := by
  obtain ⟨cs0, md0, sf0, ss0, sc0, en0⟩ := m
  replace hm : cs0 = some cs := hm
  subst hm
  cases persist <;> rfl

/-- Closed form of create_engine with no connection string available. -/
theorem create_engine_spec_none (m : DBManager) (ctr : Nat) (persist : Bool)
    (hm : m.conn_string = none) :
    m.create_engine ctr none persist = (none, m, ctr) := by
  obtain ⟨cs0, md0, sf0, ss0, sc0, en0⟩ := m
  replace hm : cs0 = none := hm
  subst hm
  rfl

/-- Claim C6: create_engine resolves an explicit connection string over the
stored one; with neither available it returns None without error; on success
the returned engine is the newly allocated one and the stored engine is
replaced exactly when persist is set. -/
theorem claim_C6 (m : DBManager) (ctr : Nat) (conn_string : Option String)
    (persist : Bool) :
    (∀ c, conn_string = some c →
       (m.create_engine ctr conn_string persist).1
         = some { eid := ctr, conn := c }) ∧
    (conn_string = none → m.conn_string = none →
       m.create_engine ctr conn_string persist = (none, m, ctr)) ∧
    (∀ e, (m.create_engine ctr conn_string persist).1 = some e →
       e.eid = ctr ∧
       (persist = true →
          (m.create_engine ctr conn_string persist).2.1.engine = some e) ∧
       (persist = false →
          (m.create_engine ctr conn_string persist).2.1.engine = m.engine)) := by
  refine ⟨?_, ?_, ?_⟩
  · intro c hc
    subst hc
    rw [create_engine_spec_some]
  · intro h1 h2
    subst h1
    rw [create_engine_spec_none m ctr persist h2]
  · intro e he
    rcases conn_string with _ | c
    · rcases hm : m.conn_string with _ | cs
      · rw [create_engine_spec_none m ctr persist hm] at he
        exact absurd he (by simp)
      · rw [create_engine_spec_stored m ctr cs persist hm] at he ⊢
        simp only [Option.some.injEq] at he
        subst he
        exact ⟨rfl, fun hp => by simp [hp], fun hp => by simp [hp]⟩
    · rw [create_engine_spec_some] at he ⊢
      simp only [Option.some.injEq] at he
      subst he
      exact ⟨rfl, fun hp => by simp [hp], fun hp => by simp [hp]⟩

/-- Witness for claim C6: a concrete call with an explicit connection string
overriding a stored one returns an engine built from the explicit string. -/
theorem claim_C6_witness :
    (mgrWithSession.create_engine 3 (some "postgresql://db") true).1
      = some { eid := 3, conn := "postgresql://db" } :=
  (claim_C6 mgrWithSession 3 (some "postgresql://db") true).1 "postgresql://db" rfl

/-- Claim C7: each of add, delete, commit and rollback acts on the explicitly
supplied session when one is given, otherwise falls back to the manager's
persisted session, and fails with an AttributeError when neither exists. -/
theorem claim_C7 (m : DBManager) (record : Nat) (s : Nat) (commit : Bool) :
    (m.add record (some s) commit
       = Except.ok ((if commit then [Effect.add s record, Effect.commit s]
                     else [Effect.add s record]), m)) ∧
    (m.session = some s →
       m.add record none commit
         = Except.ok ((if commit then [Effect.add s record, Effect.commit s]
                       else [Effect.add s record]), m)) ∧
    (m.session = none →
       m.add record none commit = Except.error PyErr.attributeError) ∧
    (m.delete record (some s) commit
       = Except.ok ((if commit then [Effect.delete s record, Effect.commit s]
                     else [Effect.delete s record]), m)) ∧
    (m.session = some s →
       m.delete record none commit
         = Except.ok ((if commit then [Effect.delete s record, Effect.commit s]
                       else [Effect.delete s record]), m)) ∧
    (m.session = none →
       m.delete record none commit = Except.error PyErr.attributeError) ∧
    (m.commit (some s) = Except.ok ([Effect.commit s], m)) ∧
    (m.session = some s → m.commit none = Except.ok ([Effect.commit s], m)) ∧
    (m.session = none → m.commit none = Except.error PyErr.attributeError) ∧
    (m.rollback (some s) = Except.ok ([Effect.rollback s], m)) ∧
    (m.session = some s → m.rollback none = Except.ok ([Effect.rollback s], m)) ∧
    (m.session = none → m.rollback none = Except.error PyErr.attributeError) := by
  refine ⟨?_, ?_, ?_, ?_, ?_, ?_, ?_, ?_, ?_, ?_, ?_, ?_⟩ <;>
    first
      | (intro h
         cases commit <;>
           simp [DBManager.add, DBManager.delete, DBManager.commit,
             DBManager.rollback, h])
      | (cases commit <;>
           simp [DBManager.add, DBManager.delete, DBManager.commit,
             DBManager.rollback])

/-- Witness for claim C7: commit with no explicit session on a manager whose
persisted session is unset fails with an AttributeError. -/
theorem claim_C7_witness :
    uninitializedPlainManager.commit none = Except.error PyErr.attributeError :=
  (claim_C7 uninitializedPlainManager 0 0 false).2.2.2.2.2.2.2.2.1 rfl

/-- Claim C5: in plain mode with a (plain) session factory present and all
previously issued session ids below the allocation counter: two successive
persisting create_session calls return the identical persisted session; after
close_session with no argument the next persisting call returns a new
instance; and a non-persisting call always constructs a fresh session and
leaves the manager unchanged. -/
theorem claim_C5 (m : DBManager) (ctr bind : Nat)
    (hscope : m.scoped_sessions = false)
    (hfac : m.session_factory = some (SessionFactory.sessionmaker bind))
    (hwf : ∀ s, m.session = some s → s < ctr) :
    ∃ s₁ m₁ ctr₁,
      m.create_session ctr true = Except.ok (PyValue.session s₁, m₁, ctr₁) ∧
      m₁.create_session ctr₁ true = Except.ok (PyValue.session s₁, m₁, ctr₁) ∧
      m₁.session = some s₁ ∧
      (∃ s₂ m₂ ctr₂,
         (m₁.close_session none).create_session ctr₁ true
           = Except.ok (PyValue.session s₂, m₂, ctr₂) ∧ s₂ ≠ s₁) ∧
      m.create_session ctr false = Except.ok (PyValue.session ctr, m, ctr + 1) ∧
      (∀ s₀, m.session = some s₀ → ctr ≠ s₀) := by
  obtain ⟨cs0, md0, sf0, ss0, sc0, en0⟩ := m
  replace hscope : sc0 = false := hscope
  replace hfac : sf0 = some (SessionFactory.sessionmaker bind) := hfac
  subst hscope hfac
  rcases ss0 with _ | s
  · refine ⟨ctr, _, ctr + 1, rfl, rfl, rfl,
      ⟨ctr + 1, _, ctr + 2, rfl, by omega⟩, rfl, ?_⟩
    intro s₀ h
    exact Option.noConfusion h
  · have hlt : s < ctr := hwf s rfl
    refine ⟨s, _, ctr, rfl, rfl, rfl,
      ⟨ctr, _, ctr + 1, rfl, Nat.ne_of_gt hlt⟩, rfl, ?_⟩
    intro s₀ h
    cases Option.some.inj h
    exact Nat.ne_of_gt hlt

/-- A plain-mode manager with a session factory and no stored session, as
after initialize(scoped=False, create_session=False). -/
def plainManagerWithFactory : DBManager :=
  { conn_string := some "sqlite://", metadata := none,
    session_factory := some (SessionFactory.sessionmaker 0),
    session := none, scoped_sessions := false,
    engine := some { eid := 0, conn := "sqlite://" } }

/-- Witness for claim C5: the plain-mode session lifecycle on a concrete
manager. -/
theorem claim_C5_witness :
    ∃ s₁ m₁ ctr₁,
      plainManagerWithFactory.create_session 0 true
        = Except.ok (PyValue.session s₁, m₁, ctr₁) ∧
      m₁.create_session ctr₁ true = Except.ok (PyValue.session s₁, m₁, ctr₁) ∧
      m₁.session = some s₁ ∧
      (∃ s₂ m₂ ctr₂,
         (m₁.close_session none).create_session ctr₁ true
           = Except.ok (PyValue.session s₂, m₂, ctr₂) ∧ s₂ ≠ s₁) ∧
      plainManagerWithFactory.create_session 0 false
        = Except.ok (PyValue.session 0, plainManagerWithFactory, 0 + 1) ∧
      (∀ s₀, plainManagerWithFactory.session = some s₀ → 0 ≠ s₀) :=
  claim_C5 plainManagerWithFactory 0 0 rfl rfl (fun _ h => Option.noConfusion h)

/-- Claim C9: once a manager's scoped_sessions flag is true, any initialize
call leaves it true, and whenever an engine is available afterwards the
constructed factory is a scoped one — even when the call passed
scoped=False. -/
theorem claim_C9 (m : DBManager) (ctr : Nat) (conn_string : Option String)
    (metadata : Option MetaDataV) (bootstrap scoped' create_session : Bool)
    (h : m.scoped_sessions = true) :
    ( DBManager.initialize m ctr conn_string metadata bootstrap scoped'
        create_session).1.scoped_sessions = true ∧
    ∀ e,
      ( DBManager.initialize m ctr conn_string metadata bootstrap scoped'
          create_session).1.engine = some e →
      ( DBManager.initialize m ctr conn_string metadata bootstrap scoped'
          create_session).1.session_factory
        = some (SessionFactory.scoped_session e.eid none) := by
  obtain ⟨cs0, md0, sf0, ss0, sc0, en0⟩ := m
  replace h : sc0 = true := h
  subst h
  rcases conn_string with _ | c <;>
    rcases cs0 with _ | cs <;>
    rcases en0 with _ | e0 <;>
    rcases metadata with _ | md <;>
    cases bootstrap <;> cases scoped' <;> cases create_session <;>
    refine ⟨rfl, fun e he => ?_⟩ <;>
    first
      | exact Option.noConfusion he
      | (cases Option.some.inj he; rfl)

/-- Witness for claim C9: a scoped manager re-initialized with scoped=False
still builds a scoped factory bound to the new engine. -/
theorem claim_C9_witness :
    ( DBManager.initialize uninitializedScopedManager 0 (some "sqlite://") none
        false false false).1.session_factory
      = some (SessionFactory.scoped_session 0 none) :=
  (claim_C9 uninitializedScopedManager 0 (some "sqlite://") none
      false false false rfl).2 { eid := 0, conn := "sqlite://" } rfl

/-- Claim C10: query takes no session argument and reads only the manager's
persisted session: whenever that field is unset the call fails with an
AttributeError, even with no filters; and initialize in scoped mode never
sets that field. -/
theorem claim_C10 :
    (∀ (m : DBManager) (model : Model) (kwargs : List (String × Nat)),
       m.session = none →
       m.query model kwargs = Except.error PyErr.attributeError) ∧
    (∀ (m : DBManager) (ctr : Nat) (conn_string : Option String)
       (metadata : Option MetaDataV) (bootstrap create_session : Bool),
       ( DBManager.initialize m ctr conn_string metadata bootstrap true
           create_session).1.session = m.session) := by
  constructor
  · intro m model kwargs hs
    rw [DBManager.query, hs]
  · intro m ctr conn_string metadata bootstrap create_session
    obtain ⟨cs0, md0, sf0, ss0, sc0, en0⟩ := m
    rcases conn_string with _ | c <;>
      rcases cs0 with _ | cs <;>
      rcases en0 with _ | e0 <;>
      rcases metadata with _ | md <;>
      cases bootstrap <;> cases create_session <;> rfl

/-- Witness for claim C10: a never-initialized scoped manager has no persisted
session and a filterless query fails with an AttributeError. -/
theorem claim_C10_witness :
    uninitializedScopedManager.query queryModelW []
      = Except.error PyErr.attributeError :=
  claim_C10.1 uninitializedScopedManager queryModelW [] rfl

end ADFIRDb
